import Mathlib

/-!
# Shallow embedding of AppDPyAPI's OAuth credential store

This file embeds `src/AppDPyAPI/oauth.py` (class `AppDOAuth` with its inner
dataclass `AppDOauthToken`) and the token-locking discipline used by
`src/AppDPyAPI/controller.py`.  Network responses are passed in explicitly
(the code's `requests.post(...)` result becomes an `HttpResponse` argument),
the wall clock (`time.time()`) becomes an explicit `now : Int` argument, and
Python exceptions become an `Option PyExc` / `Except PyExc` result.  Ghost
counters (`requestCount`, `timersArmed`) instrument how many POSTs to the
token endpoint were issued and how many `threading.Timer`s were started; they
change no control flow.
-/

set_option autoImplicit false

namespace AppDPyAPI

/-- `AppDOAuthConfig` dataclass (oauth.py lines 11-20). -/
structure AppDOAuthConfig where
  CONTROLLER_BASE_URL : String
  CLIENT_ID : String
  CLIENT_SECRET : String
  keep_refreshing_token : Bool := true
  TOKEN_KEY : String := "access_token"
  EXPIRY_KEY : String := "expires_in"
  OAUTH_ENDPOINT : String := "/controller/api/oauth/access_token"
deriving DecidableEq, Repr

/-- The exceptions `_refresh_token` can raise (oauth.py lines 23-36), plus
Python's built-in `ValueError` which `int(...)` raises on a malformed
expiry string. -/
inductive PyExc where
  | appDOAuthAuthorizationFailed
  | appDOAuthTokenKeyNotFound
  | appDOAuthExpiryKeyNotFound
  | valueError
deriving DecidableEq, Repr

/-- Result of `requests.post` to the token endpoint: HTTP status code and the
response body, parsed as the flat string-to-string JSON object that the code
annotates as `dict[str, str]` (oauth.py line 111). -/
structure HttpResponse where
  status_code : Nat
  body : List (String × String)
deriving DecidableEq, Repr

/-- Decimal digit string to `Nat`: `none` if empty or containing a
non-digit. -/
def pyNatDigits (cs : List Char) : Option Nat :=
  if cs = [] then none
  else if cs.all Char.isDigit then
    some (cs.foldl (fun n c => n * 10 + (c.toNat - 48)) 0)
  else none

/-- Python `int(s)` on the `expires_in` strings: surrounding whitespace
stripped, an optional sign, then at least one decimal digit; `none` models a
raised `ValueError`.  (Python's further niceties — underscore separators,
non-ASCII digits — do not occur for this endpoint and are not modelled.) -/
def pyInt (s : String) : Option Int :=
  let cs := ((s.data.dropWhile Char.isWhitespace).reverse.dropWhile Char.isWhitespace).reverse
  match cs with
  | '-' :: rest => (pyNatDigits rest).map (fun n => -(n : Int))
  | '+' :: rest => (pyNatDigits rest).map (fun n => (n : Int))
  | rest => (pyNatDigits rest).map (fun n => (n : Int))

/-- Inner dataclass `AppDOauthToken` (oauth.py lines 41-60).  `lockId` models
the identity of the `_lock` object (see the allocation model below): Python
evaluates the dataclass field default `_lock: threading.Lock = threading.Lock()`
once, when the class body runs, so every token constructed without an explicit
`_lock` argument shares that single `Lock` object. -/
structure AppDOauthToken where
  token : Option String := none
  expiry : Option Int := none
  lockId : Nat
deriving DecidableEq, Repr

/-- `AppDOauthToken.__bool__` (oauth.py lines 56-57): `bool(self.token)` —
true exactly when the token string is present and non-empty. -/
def AppDOauthToken.toBool (t : AppDOauthToken) : Bool :=
  match t.token with
  | none => false
  | some s => !s.isEmpty

/-- A `threading.Timer` armed by `_set_refresh_token_timer`. -/
structure TimerHandle where
  interval : Int
  cancelled : Bool := false
deriving DecidableEq, Repr

/-- The mutable state of one `AppDOAuth` instance (oauth.py lines 62-67):
`config`, `token`, the per-instance (unused) `_token_lock`, and `_timer`.
`requestCount` and `timersArmed` are ghost instrumentation. -/
structure AppDOAuth where
  config : AppDOAuthConfig
  token : AppDOauthToken
  token_lock : Nat
  timer : Option TimerHandle := none
  requestCount : Nat := 0
  timersArmed : Nat := 0
deriving DecidableEq, Repr

/-- `_set_refresh_token_timer` (oauth.py lines 130-141):
`interval = expiry - 5 if expiry > 5 else 1`, then start a timer with that
interval.  The ghost counter `timersArmed` records that a timer was started. -/
def AppDOAuth.set_refresh_token_timer (st : AppDOAuth) (expiry : Int) : AppDOAuth :=
  let interval := if expiry > 5 then expiry - 5 else 1
  { st with timer := some { interval := interval }, timersArmed := st.timersArmed + 1 }

/-- `_refresh_token` (oauth.py lines 92-128) with the endpoint's response and
the clock passed explicitly.  Returns the post-state and the raised exception,
if any.  Step by step, as in the source:
1. `requests.post(...)` — always performed first (ghost `requestCount` bump);
2. `status_code != 200` raises `AppDOAuthAuthorizationFailed` before the body
   is ever read;
3. missing `TOKEN_KEY` / `EXPIRY_KEY` raise before any mutation;
4. `self._token.token = parsed_response[TOKEN_KEY]` (the surrounding
   `lock_token()` / `unlock_token()` calls are modelled separately, as the
   lock-state functions below; they do not touch the fields embedded here);
5. `self._token.expiry = int(time.time() + int(parsed_response[EXPIRY_KEY]) - 1)`
   — the inner `int(...)` can raise `ValueError`, after step 4 already wrote;
6. if `keep_refreshing_token`, arm the refresh timer. -/
def AppDOAuth.refresh_token (st : AppDOAuth) (resp : HttpResponse) (now : Int) :
    AppDOAuth × Option PyExc :=
  let st := { st with requestCount := st.requestCount + 1 }
  if resp.status_code ≠ 200 then
    (st, some .appDOAuthAuthorizationFailed)
  else
    match resp.body.lookup st.config.TOKEN_KEY with
    | none => (st, some .appDOAuthTokenKeyNotFound)
    | some tokVal =>
      match resp.body.lookup st.config.EXPIRY_KEY with
      | none => (st, some .appDOAuthExpiryKeyNotFound)
      | some expVal =>
        let st := { st with token := { st.token with token := some tokVal } }
        match pyInt expVal with
        | none => (st, some .valueError)
        | some e =>
          let st := { st with token := { st.token with expiry := some (now + e - 1) } }
          if st.config.keep_refreshing_token then
            (st.set_refresh_token_timer e, none)
          else
            (st, none)

/-- `get_token` (oauth.py lines 69-78): `if not self._token: self._refresh_token()`,
then `return self._token`.  The response and clock are used only if a refresh
happens, mirroring that no request is made on the cached path. -/
def AppDOAuth.get_token (st : AppDOAuth) (resp : HttpResponse) (now : Int) :
    AppDOAuth × Except PyExc AppDOauthToken :=
  if !st.token.toBool then
    match st.refresh_token resp now with
    | (st', some e) => (st', .error e)
    | (st', none) => (st', .ok st'.token)
  else
    (st, .ok st.token)

/-- `stop_refreshing_token` (oauth.py lines 86-90): clear the auto-refresh
flag and cancel the pending timer, if any. -/
def AppDOAuth.stop_refreshing_token (st : AppDOAuth) : AppDOAuth :=
  let st := { st with config := { st.config with keep_refreshing_token := false } }
  match st.timer with
  | some t => { st with timer := some { t with cancelled := true } }
  | none => st

/-! ## Object identity of `threading.Lock` allocations

Lock objects are numbered in allocation order.  The dataclass field default
`_lock: threading.Lock = threading.Lock()` (oauth.py line 45) runs exactly once,
when Python executes the class body of `AppDOauthToken` — before any instance
exists — so that default lock gets id 0 and `initialWorld` starts its counter
at 1.  `AppDOAuth.__init__` later allocates a fresh, separate lock for the
(unused) attribute `self._token_lock` (line 65). -/

structure World where
  nextLockId : Nat
deriving DecidableEq, Repr

/-- Id of the class-level default `_lock` shared by every default-constructed
`AppDOauthToken`. -/
def tokenClassDefaultLockId : Nat := 0

def initialWorld : World := { nextLockId := 1 }

def World.allocLock (w : World) : Nat × World :=
  (w.nextLockId, { nextLockId := w.nextLockId + 1 })

/-- `self.AppDOauthToken()` (oauth.py line 64): the dataclass constructor with
all defaults.  The `_lock` field receives the class-level default lock object,
not a fresh one. -/
def mkDefaultToken : AppDOauthToken :=
  { token := none, expiry := none, lockId := tokenClassDefaultLockId }

/-- The store state after `__init__` lines 63-66, before the initial
`self._refresh_token()` call on line 67. -/
def initialStore (base cid secret : String) (tokenLockId : Nat) : AppDOAuth :=
  { config := { CONTROLLER_BASE_URL := base, CLIENT_ID := cid, CLIENT_SECRET := secret },
    token := mkDefaultToken,
    token_lock := tokenLockId }

/-- `AppDOAuth.__init__` (oauth.py lines 62-67): build the config and the empty
token, allocate `self._token_lock`, then synchronously call `_refresh_token()`;
an exception there propagates out of the constructor, so no store is produced. -/
def AppDOAuth.new (w : World) (base cid secret : String) (resp : HttpResponse)
    (now : Int) : Except PyExc (AppDOAuth × World) :=
  let (tlId, w) := w.allocLock
  match (initialStore base cid secret tlId).refresh_token resp now with
  | (_, some e) => .error e
  | (st, none) => .ok (st, w)

/-! ## The state of a `threading.Lock` and the token's lock/unlock methods

A `threading.Lock` is not owned by any thread: its state is only "held or
not", and any thread may call `release()`. -/

structure PyLock where
  held : Bool
deriving DecidableEq, Repr

/-- `Lock.acquire(blocking=True, timeout=5)`: if the lock is free it is taken
and `True` is returned.  If another thread holds it, the oracle
`freedWithinTimeout` says whether the holder released within the 5-second
window; if not, `acquire` returns `False` and the lock stays with the other
holder.  Result: (lock state after the call, did THIS caller acquire it). -/
def PyLock.acquireTimeout (l : PyLock) (freedWithinTimeout : Bool) : PyLock × Bool :=
  if l.held = false then ({ held := true }, true)
  else if freedWithinTimeout then ({ held := true }, true)
  else (l, false)

/-- `Lock.release()`: frees the lock if held (by whomever), raises
`RuntimeError` if the lock is not held at all. -/
def PyLock.release (l : PyLock) : Except String PyLock :=
  if l.held then .ok { held := false } else .error "release unlocked lock"

/-- `AppDOauthToken.lock` (oauth.py lines 47-48):
`self._lock.acquire(blocking=True, timeout=5)` with the returned Bool
DISCARDED — the method returns normally whether or not the lock was
acquired. -/
def AppDOauthToken.lockMethod (l : PyLock) (freedWithinTimeout : Bool) : PyLock :=
  (l.acquireTimeout freedWithinTimeout).1

/-- `AppDOauthToken.unlock` (oauth.py lines 50-51): `self._lock.release()`. -/
def AppDOauthToken.unlockMethod (l : PyLock) : Except String PyLock :=
  l.release

/-! ## Sequential traces of public operations on one store (for the
stop/refresh temporal claims)

`timerFire` models the armed `threading.Timer` invoking `self._refresh_token`
(oauth.py line 139); an exception raised there propagates in the timer thread
(nothing catches it), so for state evolution only the post-state matters. -/

inductive StoreOp where
  | getToken (resp : HttpResponse) (now : Int)
  | timerFire (resp : HttpResponse) (now : Int)
  | stopRefreshing
deriving Repr

def stepOp (st : AppDOAuth) (op : StoreOp) : AppDOAuth :=
  match op with
  | .getToken resp now => (st.get_token resp now).1
  | .timerFire resp now => (st.refresh_token resp now).1
  | .stopRefreshing => st.stop_refreshing_token

def runOps (st : AppDOAuth) (ops : List StoreOp) : AppDOAuth :=
  ops.foldl stepOp st

/-! ## Interleaved concurrent `get_token` calls (for the no-duplicate-request
claim)

`n` threads each run `get_token` on one shared store whose token cache is the
shared variable `tok`.  Each Python statement is one atomic step; a schedule
is the list of thread ids in execution order.  The token endpoint is fixed to
answer every POST with the same successful response carrying token value `v`
(status 200, both fields present), so each thread that POSTs runs the success
path of `_refresh_token`.  Timer arming is elided here (it touches neither the
token cache nor the request count).  `count` is the ghost total of POSTs,
`reqs i` the ghost count of POSTs issued by thread `i`. -/

/-- Python truthiness of the shared `token` field, as in
`AppDOauthToken.__bool__`. -/
def tokTruthy : Option String → Bool
  | none => false
  | some s => !s.isEmpty

/-- Program counter of one thread running `get_token`:
`check` = about to evaluate `if not self._token` (line 75);
`post` = about to POST to the token endpoint (line 102);
`install` = about to write the token fields under the lock (lines 122-125);
`ret` = about to `return self._token` (line 78);
`done r` = returned with token value `r`. -/
inductive ThreadPC where
  | check
  | post
  | install
  | ret
  | done (r : Option String)
deriving DecidableEq, Repr

structure ConcState (n : Nat) where
  tok : Option String
  count : Nat
  reqs : Fin n → Nat
  pcs : Fin n → ThreadPC

/-- One atomic step of thread `i`. -/
def threadStep {n : Nat} (v : String) (s : ConcState n) (i : Fin n) : ConcState n :=
  match s.pcs i with
  | .check =>
      if tokTruthy s.tok then { s with pcs := Function.update s.pcs i .ret }
      else { s with pcs := Function.update s.pcs i .post }
  | .post =>
      { s with count := s.count + 1,
               reqs := Function.update s.reqs i (s.reqs i + 1),
               pcs := Function.update s.pcs i .install }
  | .install =>
      { s with tok := some v, pcs := Function.update s.pcs i .ret }
  | .ret =>
      { s with pcs := Function.update s.pcs i (.done s.tok) }
  | .done _ => s

/-- All threads poised to call `get_token` on a store with no cached token. -/
def initConc (n : Nat) : ConcState n :=
  { tok := none, count := 0, reqs := fun _ => 0, pcs := fun _ => .check }

def runSched {n : Nat} (v : String) (s : ConcState n) (sched : List (Fin n)) : ConcState n :=
  sched.foldl (threadStep v) s

/-! ## Concrete fixtures (endpoint responses and store states) -/

/-- The spec's scenario response: HTTP 200 with token `"abc"` expiring in 60 s. -/
def okResp : HttpResponse :=
  { status_code := 200, body := [("access_token", "abc"), ("expires_in", "60")] }

/-- A rejected token request: HTTP 401. -/
def resp401 : HttpResponse :=
  { status_code := 401, body := [("error", "unauthorized")] }

def cfgEx : AppDOAuthConfig :=
  { CONTROLLER_BASE_URL := "https://x.example", CLIENT_ID := "id", CLIENT_SECRET := "sec" }

/-- A store holding no token yet. -/
def stEmpty : AppDOAuth :=
  { config := cfgEx, token := mkDefaultToken, token_lock := 1 }

/-- A store holding token `"abc"` whose expiry (instant 0) is already past. -/
def stExpired : AppDOAuth :=
  { config := cfgEx,
    token := { token := some "abc", expiry := some 0, lockId := tokenClassDefaultLockId },
    token_lock := 1 }

/-- A store holding a token with its refresh timer armed. -/
def stArmed : AppDOAuth :=
  { config := cfgEx,
    token := { token := some "abc", expiry := some 59, lockId := tokenClassDefaultLockId },
    token_lock := 1, timer := some { interval := 55 }, requestCount := 1, timersArmed := 1 }

/-! ## Helper lemmas about `refresh_token`, `get_token`, `stop_refreshing_token` -/

/-- Complete case analysis of `_refresh_token`: its five exits, each with the
exact post-state. -/
theorem refresh_spec (st : AppDOAuth) (resp : HttpResponse) (now : Int) :
    (resp.status_code ≠ 200 ∧
      st.refresh_token resp now =
        ({ st with requestCount := st.requestCount + 1 }, some .appDOAuthAuthorizationFailed)) ∨
    (resp.status_code = 200 ∧ resp.body.lookup st.config.TOKEN_KEY = none ∧
      st.refresh_token resp now =
        ({ st with requestCount := st.requestCount + 1 }, some .appDOAuthTokenKeyNotFound)) ∨
    (∃ tokVal, resp.status_code = 200 ∧ resp.body.lookup st.config.TOKEN_KEY = some tokVal ∧
      resp.body.lookup st.config.EXPIRY_KEY = none ∧
      st.refresh_token resp now =
        ({ st with requestCount := st.requestCount + 1 }, some .appDOAuthExpiryKeyNotFound)) ∨
    (∃ tokVal expVal, resp.status_code = 200 ∧
      resp.body.lookup st.config.TOKEN_KEY = some tokVal ∧
      resp.body.lookup st.config.EXPIRY_KEY = some expVal ∧ pyInt expVal = none ∧
      st.refresh_token resp now =
        ({ st with requestCount := st.requestCount + 1,
                   token := { st.token with token := some tokVal } }, some .valueError)) ∨
    (∃ tokVal expVal e, resp.status_code = 200 ∧
      resp.body.lookup st.config.TOKEN_KEY = some tokVal ∧
      resp.body.lookup st.config.EXPIRY_KEY = some expVal ∧ pyInt expVal = some e ∧
      st.config.keep_refreshing_token = true ∧
      st.refresh_token resp now =
        ({ st with requestCount := st.requestCount + 1,
                   token := { token := some tokVal, expiry := some (now + e - 1),
                              lockId := st.token.lockId },
                   timer := some { interval := if e > 5 then e - 5 else 1 },
                   timersArmed := st.timersArmed + 1 }, none)) ∨
    (∃ tokVal expVal e, resp.status_code = 200 ∧
      resp.body.lookup st.config.TOKEN_KEY = some tokVal ∧
      resp.body.lookup st.config.EXPIRY_KEY = some expVal ∧ pyInt expVal = some e ∧
      st.config.keep_refreshing_token = false ∧
      st.refresh_token resp now =
        ({ st with requestCount := st.requestCount + 1,
                   token := { token := some tokVal, expiry := some (now + e - 1),
                              lockId := st.token.lockId } }, none)) := by
  simp only [AppDOAuth.refresh_token, AppDOAuth.set_refresh_token_timer]
  split
  next hs => exact Or.inl ⟨hs, rfl⟩
  next hs =>
  have hs200 : resp.status_code = 200 := by omega
  split
  next htok => exact Or.inr (Or.inl ⟨hs200, htok, rfl⟩)
  next tokVal htok =>
  split
  next hexp => exact Or.inr (Or.inr (Or.inl ⟨tokVal, hs200, htok, hexp, rfl⟩))
  next expVal hexp =>
  split
  next hint => exact Or.inr (Or.inr (Or.inr (Or.inl ⟨tokVal, expVal, hs200, htok, hexp, hint, rfl⟩)))
  next e hint =>
  split
  next hk =>
    exact Or.inr (Or.inr (Or.inr (Or.inr (Or.inl
      ⟨tokVal, expVal, e, hs200, htok, hexp, hint, hk, rfl⟩))))
  next hk =>
    exact Or.inr (Or.inr (Or.inr (Or.inr (Or.inr
      ⟨tokVal, expVal, e, hs200, htok, hexp, hint, by simpa using hk, rfl⟩))))

theorem refresh_requestCount (st : AppDOAuth) (resp : HttpResponse) (now : Int) :
    (st.refresh_token resp now).1.requestCount = st.requestCount + 1 := by
  rcases refresh_spec st resp now with ⟨_, h⟩ | ⟨_, _, h⟩ | ⟨_, _, _, _, h⟩ |
    ⟨_, _, _, _, _, _, h⟩ | ⟨_, _, _, _, _, _, _, _, h⟩ | ⟨_, _, _, _, _, _, _, _, h⟩ <;>
    rw [h]

theorem refresh_config (st : AppDOAuth) (resp : HttpResponse) (now : Int) :
    (st.refresh_token resp now).1.config = st.config := by
  rcases refresh_spec st resp now with ⟨_, h⟩ | ⟨_, _, h⟩ | ⟨_, _, _, _, h⟩ |
    ⟨_, _, _, _, _, _, h⟩ | ⟨_, _, _, _, _, _, _, _, h⟩ | ⟨_, _, _, _, _, _, _, _, h⟩ <;>
    rw [h]

/-- With auto-refresh disabled, a refresh (successful or not) never arms a
timer. -/
theorem refresh_no_arm (st : AppDOAuth) (resp : HttpResponse) (now : Int)
    (hk : st.config.keep_refreshing_token = false) :
    (st.refresh_token resp now).1.timersArmed = st.timersArmed ∧
    (st.refresh_token resp now).1.timer = st.timer := by
  rcases refresh_spec st resp now with ⟨_, h⟩ | ⟨_, _, h⟩ | ⟨_, _, _, _, h⟩ |
    ⟨_, _, _, _, _, _, h⟩ | ⟨_, _, _, _, _, _, _, hk2, h⟩ | ⟨_, _, _, _, _, _, _, _, h⟩ <;>
    first
    | exact absurd hk2 (by rw [hk]; exact Bool.false_ne_true)
    | (rw [h]; exact ⟨rfl, rfl⟩)

/-- A refresh that raises leaves the expiry, the timer and the timer count
unchanged; unless the exception is the `ValueError` from `int(...)` (raised
after the token-string assignment), the whole token is unchanged. -/
theorem refresh_error_state (st : AppDOAuth) (resp : HttpResponse) (now : Int) (e : PyExc)
    (h : (st.refresh_token resp now).2 = some e) :
    (st.refresh_token resp now).1.token.expiry = st.token.expiry ∧
    (st.refresh_token resp now).1.timer = st.timer ∧
    (st.refresh_token resp now).1.timersArmed = st.timersArmed ∧
    (e ≠ .valueError → (st.refresh_token resp now).1.token = st.token) := by
  rcases refresh_spec st resp now with ⟨_, hr⟩ | ⟨_, _, hr⟩ | ⟨_, _, _, _, hr⟩ |
    ⟨_, _, _, _, _, _, hr⟩ | ⟨_, _, _, _, _, _, _, _, hr⟩ | ⟨_, _, _, _, _, _, _, _, hr⟩ <;>
    rw [hr] at h ⊢ <;> simp_all

/-- `get_token` on a store whose token is falsy runs `_refresh_token` and
forwards its outcome. -/
theorem get_token_of_falsy (st : AppDOAuth) (resp : HttpResponse) (now : Int)
    (h : st.token.toBool = false) :
    (st.get_token resp now).1 = (st.refresh_token resp now).1 ∧
    (st.get_token resp now).2 =
      (match (st.refresh_token resp now).2 with
       | some e => .error e
       | none => .ok (st.refresh_token resp now).1.token) := by
  unfold AppDOAuth.get_token
  rcases hr : st.refresh_token resp now with ⟨st', oe⟩
  rw [h]
  cases oe <;> simp

/-- `get_token` on a store whose token is truthy returns it untouched and
makes no request. -/
theorem get_token_of_truthy (st : AppDOAuth) (resp : HttpResponse) (now : Int)
    (h : st.token.toBool = true) :
    st.get_token resp now = (st, .ok st.token) := by
  unfold AppDOAuth.get_token
  rw [h]
  rfl

theorem stop_flag_false (st : AppDOAuth) :
    st.stop_refreshing_token.config.keep_refreshing_token = false := by
  cases h : st.timer <;> simp [AppDOAuth.stop_refreshing_token, h]

theorem stop_preserves (st : AppDOAuth) :
    st.stop_refreshing_token.token = st.token ∧
    st.stop_refreshing_token.timersArmed = st.timersArmed ∧
    st.stop_refreshing_token.requestCount = st.requestCount := by
  cases h : st.timer <;> simp [AppDOAuth.stop_refreshing_token, h]

/-- Once auto-refresh is off, no single operation turns it back on or arms a
timer. -/
theorem stepOp_no_arm (st : AppDOAuth) (op : StoreOp)
    (h : st.config.keep_refreshing_token = false) :
    (stepOp st op).config.keep_refreshing_token = false ∧
    (stepOp st op).timersArmed = st.timersArmed := by
  cases op with
  | getToken resp now =>
    by_cases ht : st.token.toBool = true
    · rw [show stepOp st (.getToken resp now) = (st.get_token resp now).1 from rfl,
         get_token_of_truthy st resp now ht]
      exact ⟨h, rfl⟩
    · have hf := get_token_of_falsy st resp now (by simpa using ht)
      rw [show stepOp st (.getToken resp now) = (st.get_token resp now).1 from rfl, hf.1]
      exact ⟨by rw [refresh_config]; exact h, (refresh_no_arm st resp now h).1⟩
  | timerFire resp now =>
    exact ⟨by rw [show stepOp st (.timerFire resp now) = (st.refresh_token resp now).1 from rfl,
                  refresh_config]; exact h,
           (refresh_no_arm st resp now h).1⟩
  | stopRefreshing =>
    exact ⟨stop_flag_false st, (stop_preserves st).2.1⟩

/-- Once auto-refresh is off, no sequence of operations arms a timer. -/
theorem runOps_no_arm (ops : List StoreOp) (st : AppDOAuth)
    (h : st.config.keep_refreshing_token = false) :
    (runOps st ops).config.keep_refreshing_token = false ∧
    (runOps st ops).timersArmed = st.timersArmed := by
  induction ops generalizing st with
  | nil => exact ⟨h, rfl⟩
  | cons op ops ih =>
    have h1 := stepOp_no_arm st op h
    have h2 := ih (stepOp st op) h1.1
    exact ⟨h2.1, h2.2.trans h1.2⟩

/-! ## Invariant of the interleaved `get_token` machine -/

/-- A thread that has not yet POSTed (program counter at the truthiness check
or at the POST itself) has issued no request; every thread issues at most one;
the global POST count is the sum of the per-thread counts. -/
def ConcInv {n : Nat} (s : ConcState n) : Prop :=
  s.count = ∑ i, s.reqs i ∧
  ∀ i, s.reqs i ≤ 1 ∧ ((s.pcs i = .check ∨ s.pcs i = .post) → s.reqs i = 0)

theorem concInv_init (n : Nat) : ConcInv (initConc n) := by
  refine ⟨by simp [initConc], fun i => ⟨by simp [initConc], fun _ => rfl⟩⟩

theorem concInv_step {n : Nat} (v : String) (s : ConcState n) (i : Fin n)
    (h : ConcInv s) : ConcInv (threadStep v s i) := by
  obtain ⟨hc, hr⟩ := h
  cases hpc : s.pcs i with
  | check =>
    simp only [threadStep, hpc]
    split <;>
    · refine ⟨hc, fun j => ⟨(hr j).1, fun hearly => ?_⟩⟩
      dsimp only at hearly ⊢
      rcases eq_or_ne j i with rfl | hne
      · exact (hr j).2 (Or.inl hpc)
      · rw [Function.update_noteq hne] at hearly
        exact (hr j).2 hearly
  | post =>
    simp only [threadStep, hpc]
    have hzero : s.reqs i = 0 := (hr i).2 (Or.inr hpc)
    constructor
    · show s.count + 1 = ∑ j, Function.update s.reqs i (s.reqs i + 1) j
      rw [Finset.sum_update_of_mem (Finset.mem_univ i)]
      have hsplit : s.reqs i + ∑ x in Finset.univ.erase i, s.reqs x = ∑ x, s.reqs x :=
        Finset.add_sum_erase Finset.univ s.reqs (Finset.mem_univ i)
      rw [Finset.erase_eq] at hsplit
      omega
    · intro j
      refine ⟨?_, fun hearly => ?_⟩ <;> dsimp only at *
      · rcases eq_or_ne j i with rfl | hne
        · rw [Function.update_same]; omega
        · rw [Function.update_noteq hne]; exact (hr j).1
      · rcases eq_or_ne j i with rfl | hne
        · rw [Function.update_same] at hearly
          rcases hearly with h' | h' <;> exact ThreadPC.noConfusion h'
        · rw [Function.update_noteq hne] at hearly
          rw [Function.update_noteq hne]
          exact (hr j).2 hearly
  | install =>
    simp only [threadStep, hpc]
    refine ⟨hc, fun j => ⟨(hr j).1, fun hearly => ?_⟩⟩
    dsimp only at hearly ⊢
    rcases eq_or_ne j i with rfl | hne
    · rw [Function.update_same] at hearly
      rcases hearly with h' | h' <;> exact ThreadPC.noConfusion h'
    · rw [Function.update_noteq hne] at hearly
      exact (hr j).2 hearly
  | ret =>
    simp only [threadStep, hpc]
    refine ⟨hc, fun j => ⟨(hr j).1, fun hearly => ?_⟩⟩
    dsimp only at hearly ⊢
    rcases eq_or_ne j i with rfl | hne
    · rw [Function.update_same] at hearly
      rcases hearly with h' | h' <;> exact ThreadPC.noConfusion h'
    · rw [Function.update_noteq hne] at hearly
      exact (hr j).2 hearly
  | done r =>
    simp only [threadStep, hpc]
    exact ⟨hc, hr⟩

theorem concInv_run {n : Nat} (v : String) (sched : List (Fin n)) (s : ConcState n)
    (h : ConcInv s) : ConcInv (runSched v s sched) := by
  induction sched generalizing s with
  | nil => exact h
  | cons i rest ih => exact ih (threadStep v s i) (concInv_step v s i h)

/-! ## Claim theorems -/

/-- C1 (counterexample): two concurrent `get_token` callers on a store with no
cached token, interleaved truthiness-check / truthiness-check / POST / POST,
perform TWO token requests: `get_token` has no in-flight-refresh coordination,
refuting "at most one token request is performed". -/
theorem two_concurrent_get_token_calls_two_requests :
    (runSched "abc" (initConc 2) [0, 1, 0, 1]).count = 2 := by
  rfl

/-- C1 (amended): concurrent `get_token` calls are not serialized — each
caller performs at most one token request, the total number of token requests
equals the sum of the per-caller counts and is bounded by the number of
callers, not by one. -/
theorem get_token_concurrent_requests_bounded (n : Nat) (v : String) (sched : List (Fin n)) :
    (∀ i, (runSched v (initConc n) sched).reqs i ≤ 1) ∧
    (runSched v (initConc n) sched).count = ∑ i, (runSched v (initConc n) sched).reqs i ∧
    (runSched v (initConc n) sched).count ≤ n := by
  obtain ⟨hc, hr⟩ := concInv_run v sched (initConc n) (concInv_init n)
  refine ⟨fun i => (hr i).1, hc, ?_⟩
  rw [hc]
  calc ∑ i, (runSched v (initConc n) sched).reqs i
      ≤ ∑ _i : Fin n, 1 := Finset.sum_le_sum (fun i _ => (hr i).1)
    _ = n := by simp

/-- C2 (counterexample): a store caching token `"abc"` with expiry at instant
0, queried at `now = 100`, well past expiry: `get_token` performs no refresh
(request count unchanged) and returns the known-expired token, refuting "the
returned token's expiry is strictly in the future at the time of return". -/
theorem get_token_returns_expired_token :
    stExpired.token.expiry = some 0 ∧ (0 : Int) < 100 ∧
    stExpired.get_token okResp 100 = (stExpired, .ok stExpired.token) ∧
    (stExpired.get_token okResp 100).1.requestCount = stExpired.requestCount :=
  ⟨rfl, by norm_num, rfl, rfl⟩

/-- C2 (amended): `get_token` refreshes exactly when the cached token string
is absent or empty (Python truthiness of `self._token`); it never consults the
expiry, so a cached token is returned as-is — possibly already expired. -/
theorem get_token_refreshes_iff_token_falsy (st : AppDOAuth) (resp : HttpResponse) (now : Int) :
    (st.token.toBool = true → st.get_token resp now = (st, .ok st.token)) ∧
    (st.token.toBool = false →
      (st.get_token resp now).1 = (st.refresh_token resp now).1 ∧
      (st.get_token resp now).1.requestCount = st.requestCount + 1) :=
  ⟨fun h => get_token_of_truthy st resp now h,
   fun h => ⟨(get_token_of_falsy st resp now h).1,
             by rw [(get_token_of_falsy st resp now h).1, refresh_requestCount]⟩⟩

/-- Witness for C2 (amended): the truthy branch applied to the expired store,
the falsy branch to the empty store. -/
theorem get_token_refreshes_iff_token_falsy_witness :
    stExpired.get_token okResp 100 = (stExpired, .ok stExpired.token) ∧
    (stEmpty.get_token okResp 0).1.requestCount = stEmpty.requestCount + 1 :=
  ⟨(get_token_refreshes_iff_token_falsy stExpired okResp 100).1 rfl,
   ((get_token_refreshes_iff_token_falsy stEmpty okResp 0).2 rfl).2⟩

/-- C3: a refresh failing with `AppDOAuthAuthorizationFailed`,
`AppDOAuthTokenKeyNotFound` or `AppDOAuthExpiryKeyNotFound` leaves the cached
token value and expiry unchanged, and `get_token` propagates the exception to
the caller that triggered the refresh. -/
theorem refresh_failure_leaves_token_unchanged (st : AppDOAuth) (resp : HttpResponse)
    (now : Int) (e : PyExc)
    (h : (st.refresh_token resp now).2 = some e)
    (he : e = .appDOAuthAuthorizationFailed ∨ e = .appDOAuthTokenKeyNotFound ∨
          e = .appDOAuthExpiryKeyNotFound) :
    (st.refresh_token resp now).1.token.token = st.token.token ∧
    (st.refresh_token resp now).1.token.expiry = st.token.expiry ∧
    (st.token.toBool = false → (st.get_token resp now).2 = .error e) := by
  have hne : e ≠ .valueError := by rcases he with rfl | rfl | rfl <;> simp
  have htok := (refresh_error_state st resp now e h).2.2.2 hne
  refine ⟨by rw [htok], by rw [htok], fun hf => ?_⟩
  rw [(get_token_of_falsy st resp now hf).2, h]

/-- Witness for C3: empty store, HTTP 401 response. -/
theorem refresh_failure_leaves_token_unchanged_witness :
    (stEmpty.refresh_token resp401 0).1.token.token = stEmpty.token.token ∧
    (stEmpty.refresh_token resp401 0).1.token.expiry = stEmpty.token.expiry ∧
    (stEmpty.get_token resp401 0).2 = .error .appDOAuthAuthorizationFailed := by
  have h := refresh_failure_leaves_token_unchanged stEmpty resp401 0
    .appDOAuthAuthorizationFailed rfl (Or.inl rfl)
  exact ⟨h.1, h.2.1, h.2.2 rfl⟩

/-- C4: for every integer expiry-seconds value `E`, the timer armed by
`_set_refresh_token_timer` uses interval `max (E - 5) 1` — at least 1 second,
never zero or negative, and `E - 5` whenever `E` exceeds 5. -/
theorem refresh_timer_interval_eq_max (st : AppDOAuth) (E : Int) :
    ((st.set_refresh_token_timer E).timer.map TimerHandle.interval) = some (max (E - 5) 1) ∧
    1 ≤ max (E - 5) 1 ∧
    (5 < E → max (E - 5) 1 = E - 5) := by
  have hmax : (if E > 5 then E - 5 else 1) = max (E - 5) 1 := by
    rcases lt_or_le 5 E with h | h
    · rw [if_pos h, max_eq_left (by omega)]
    · rw [if_neg (by omega), max_eq_right (by omega)]
  exact ⟨by simp [AppDOAuth.set_refresh_token_timer, hmax], le_max_right _ _,
         fun h => max_eq_left (by omega)⟩

/-- Witness for C4 at the spec's scenario `E = 60`: a 55-second timer. -/
theorem refresh_timer_interval_eq_max_witness :
    ((stEmpty.set_refresh_token_timer 60).timer.map TimerHandle.interval) =
      some (max (60 - 5) 1) ∧
    (1 : Int) ≤ max (60 - 5) 1 ∧ max ((60 : Int) - 5) 1 = 60 - 5 := by
  have h := refresh_timer_interval_eq_max stEmpty 60
  exact ⟨h.1, h.2.1, h.2.2 (by norm_num)⟩

/-- C5: the token fetch raises `AppDOAuthAuthorizationFailed` iff the HTTP
status is not the success status 200 (spec section 6: expected success is
HTTP 200); in that case the store is unchanged apart from the ghost request
counter — no token is cached — and the outcome does not depend on the
response body at all. -/
theorem authorization_failed_iff_non_200 (st : AppDOAuth) (resp : HttpResponse) (now : Int) :
    ((st.refresh_token resp now).2 = some .appDOAuthAuthorizationFailed ↔
      resp.status_code ≠ 200) ∧
    (resp.status_code ≠ 200 →
      (st.refresh_token resp now).1 = { st with requestCount := st.requestCount + 1 } ∧
      ∀ body2, st.refresh_token { status_code := resp.status_code, body := body2 } now =
        st.refresh_token resp now) := by
  by_cases hs : resp.status_code = 200
  · refine ⟨⟨fun h => ?_, fun h => absurd hs h⟩, fun h => absurd hs h⟩
    rcases refresh_spec st resp now with ⟨hne, _⟩ | ⟨_, _, hr⟩ | ⟨_, _, _, _, hr⟩ |
      ⟨_, _, _, _, _, _, hr⟩ | ⟨_, _, _, _, _, _, _, _, hr⟩ | ⟨_, _, _, _, _, _, _, _, hr⟩
    · exact hne
    all_goals rw [hr] at h; simp at h
  · have hauth : ∀ body2 : List (String × String),
        st.refresh_token { status_code := resp.status_code, body := body2 } now =
          ({ st with requestCount := st.requestCount + 1 },
           some .appDOAuthAuthorizationFailed) := by
      intro body2
      rcases refresh_spec st { status_code := resp.status_code, body := body2 } now with
        ⟨_, hr⟩ | ⟨h200, _⟩ | ⟨_, h200, _⟩ | ⟨_, _, h200, _⟩ |
        ⟨_, _, _, h200, _⟩ | ⟨_, _, _, h200, _⟩
      · exact hr
      all_goals exact absurd h200 hs
    have hself : st.refresh_token resp now =
        ({ st with requestCount := st.requestCount + 1 },
         some .appDOAuthAuthorizationFailed) := by
      have := hauth resp.body
      exact this
    refine ⟨⟨fun _ => hs, fun _ => by rw [hself]⟩,
            fun _ => ⟨by rw [hself], fun body2 => by rw [hauth body2, hself]⟩⟩

/-- Witness for C5: empty store, HTTP 401. -/
theorem authorization_failed_iff_non_200_witness :
    (stEmpty.refresh_token resp401 0).2 = some .appDOAuthAuthorizationFailed ∧
    (stEmpty.refresh_token resp401 0).1 =
      { stEmpty with requestCount := stEmpty.requestCount + 1 } ∧
    stEmpty.refresh_token { status_code := resp401.status_code, body := [] } 0 =
      stEmpty.refresh_token resp401 0 := by
  have h := authorization_failed_iff_non_200 stEmpty resp401 0
  exact ⟨h.1.mpr (by decide), (h.2 (by decide)).1, (h.2 (by decide)).2 []⟩

/-- C6: `AppDOAuth.__init__` performs the initial token fetch synchronously —
on success the constructed store is exactly the post-fetch state, having
issued one token request — and construction fails with the fetch's exception
whenever the fetch fails, producing no store. -/
theorem construction_fetches_and_fails_fast (w : World) (base cid secret : String)
    (resp : HttpResponse) (now : Int) :
    (∀ e, ((initialStore base cid secret w.allocLock.1).refresh_token resp now).2 = some e →
      AppDOAuth.new w base cid secret resp now = .error e) ∧
    (((initialStore base cid secret w.allocLock.1).refresh_token resp now).2 = none →
      AppDOAuth.new w base cid secret resp now =
        .ok (((initialStore base cid secret w.allocLock.1).refresh_token resp now).1,
             w.allocLock.2) ∧
      ((initialStore base cid secret w.allocLock.1).refresh_token resp now).1.requestCount
        = 1) := by
  unfold AppDOAuth.new
  rw [show w.allocLock = (w.allocLock.1, w.allocLock.2) from rfl]
  dsimp only
  rcases hr : (initialStore base cid secret w.allocLock.1).refresh_token resp now with ⟨st', oe⟩
  cases oe with
  | some e' =>
    refine ⟨fun e he => ?_, fun hnone => ?_⟩
    · obtain rfl : e' = e := by simpa using he
      rfl
    · simp at hnone
  | none =>
    refine ⟨fun e he => ?_, fun _ => ⟨rfl, ?_⟩⟩
    · simp at he
    · show st'.requestCount = 1
      have h1 : ((initialStore base cid secret w.allocLock.1).refresh_token resp now).1 = st' := by
        rw [hr]
      rw [← h1, refresh_requestCount]
      rfl

/-- Witness for C6: HTTP 401 aborts construction; the successful scenario
fetch produces a store having made exactly one request. -/
theorem construction_fetches_and_fails_fast_witness :
    AppDOAuth.new initialWorld "u" "c" "s" resp401 0 =
      .error .appDOAuthAuthorizationFailed ∧
    ((initialStore "u" "c" "s" initialWorld.allocLock.1).refresh_token okResp 0).1.requestCount
      = 1 :=
  by
  have h1 : ((initialStore "u" "c" "s" initialWorld.allocLock.1).refresh_token resp401 0).2 =
      some .appDOAuthAuthorizationFailed := rfl
  have h2 : ((initialStore "u" "c" "s" initialWorld.allocLock.1).refresh_token okResp 0).2 =
      none := rfl
  exact ⟨(construction_fetches_and_fails_fast initialWorld "u" "c" "s" resp401 0).1
           .appDOAuthAuthorizationFailed h1,
         ((construction_fetches_and_fails_fast initialWorld "u" "c" "s" okResp 0).2 h2).2⟩

/-- C7: after `stop_refreshing_token`, no sequence of further operations
(`get_token` calls, timer firings, repeated stops) ever arms a new background
timer; `stop_refreshing_token` is idempotent and leaves the cached token
(value and expiry) unchanged; and `get_token` still performs a synchronous
refresh when no token is cached. -/
theorem stop_refreshing_token_never_rearms (st : AppDOAuth) (ops : List StoreOp)
    (resp : HttpResponse) (now : Int) :
    (runOps st.stop_refreshing_token ops).timersArmed = st.timersArmed ∧
    st.stop_refreshing_token.stop_refreshing_token = st.stop_refreshing_token ∧
    st.stop_refreshing_token.token = st.token ∧
    (st.stop_refreshing_token.token.toBool = false →
      (st.stop_refreshing_token.get_token resp now).1.requestCount =
        st.requestCount + 1) := by
  have hpres := stop_preserves st
  have hrun := runOps_no_arm ops st.stop_refreshing_token (stop_flag_false st)
  refine ⟨hrun.2.trans hpres.2.1, ?_, hpres.1, fun hf => ?_⟩
  · cases h : st.timer <;>
      simp [AppDOAuth.stop_refreshing_token, h]
  · rw [(get_token_of_falsy st.stop_refreshing_token resp now hf).1, refresh_requestCount,
        hpres.2.2]

/-- Witness for C7: empty store, stopped, then a schedule of further
operations. -/
theorem stop_refreshing_token_never_rearms_witness :
    (runOps stEmpty.stop_refreshing_token
        [.getToken okResp 5, .timerFire okResp 6, .stopRefreshing]).timersArmed =
      stEmpty.timersArmed ∧
    stEmpty.stop_refreshing_token.stop_refreshing_token = stEmpty.stop_refreshing_token ∧
    stEmpty.stop_refreshing_token.token = stEmpty.token ∧
    (stEmpty.stop_refreshing_token.get_token resp401 0).1.requestCount =
      stEmpty.requestCount + 1 := by
  have h := stop_refreshing_token_never_rearms stEmpty
    [.getToken okResp 5, .timerFire okResp 6, .stopRefreshing] resp401 0
  exact ⟨h.1, h.2.1, h.2.2.1, h.2.2.2 rfl⟩

/-- C8 (counterexample): a timer-fired refresh (`stepOp … .timerFire` runs
`_refresh_token`, which is exactly what the armed `threading.Timer` invokes)
that hits HTTP 401 raises out of the timer callback and arms NO retry timer —
not 1 second later, not ever (`timersArmed` and `timer` unchanged) — refuting
"the error is caught … and exactly one retry attempt is scheduled 1 second
later". -/
theorem failed_timer_refresh_schedules_no_retry :
    (stArmed.refresh_token resp401 1000).2 = some .appDOAuthAuthorizationFailed ∧
    stepOp stArmed (.timerFire resp401 1000) = (stArmed.refresh_token resp401 1000).1 ∧
    (stArmed.refresh_token resp401 1000).1.timersArmed = stArmed.timersArmed ∧
    (stArmed.refresh_token resp401 1000).1.timer = stArmed.timer :=
  ⟨rfl, rfl, rfl, rfl⟩

/-- C8 (amended): a failing background refresh raises out of the timer thread
uncaught and schedules no retry — the timer handle and the count of timers
ever armed are unchanged — so automatic renewal stops until a later
`get_token` call finds no cached token and performs a synchronous refresh. -/
theorem refresh_failure_arms_no_timer (st : AppDOAuth) (resp : HttpResponse) (now : Int)
    (e : PyExc) (h : (st.refresh_token resp now).2 = some e) :
    (st.refresh_token resp now).1.timersArmed = st.timersArmed ∧
    (st.refresh_token resp now).1.timer = st.timer ∧
    ((st.refresh_token resp now).1.token.toBool = false → ∀ resp2 now2,
      (((st.refresh_token resp now).1.get_token resp2 now2)).1.requestCount =
        (st.refresh_token resp now).1.requestCount + 1) := by
  have hs := refresh_error_state st resp now e h
  refine ⟨hs.2.2.1, hs.2.1, fun hf resp2 now2 => ?_⟩
  rw [(get_token_of_falsy _ resp2 now2 hf).1, refresh_requestCount]

/-- Witness for C8 (amended): empty store, HTTP 401, then a later successful
synchronous `get_token`. -/
theorem refresh_failure_arms_no_timer_witness :
    (stEmpty.refresh_token resp401 0).1.timersArmed = stEmpty.timersArmed ∧
    (stEmpty.refresh_token resp401 0).1.timer = stEmpty.timer ∧
    ((stEmpty.refresh_token resp401 0).1.get_token okResp 5).1.requestCount =
      (stEmpty.refresh_token resp401 0).1.requestCount + 1 := by
  have h := refresh_failure_arms_no_timer stEmpty resp401 0 .appDOAuthAuthorizationFailed rfl
  exact ⟨h.1, h.2.1, h.2.2 rfl okResp 5⟩

/-- Two credential stores constructed one after the other, both against the
spec's scenario response. -/
def twoStores : Option (AppDOAuth × AppDOAuth) :=
  match AppDOAuth.new initialWorld "urlA" "idA" "secA" okResp 0 with
  | .error _ => none
  | .ok (s1, w1) =>
    match AppDOAuth.new w1 "urlB" "idB" "secB" okResp 0 with
    | .error _ => none
    | .ok (s2, _) => some (s1, s2)

/-- C9: evaluating the code at the failing input (two distinct `AppDOAuth`
constructions): both stores' tokens carry the SAME lock object — id 0, the
single `threading.Lock` created once when Python evaluated the dataclass
field default `_lock: threading.Lock = threading.Lock()` — so locking one
store's token contends with the other store.  The per-instance allocations
the constructor does make (`self._token_lock`, ids 1 and 2) are distinct,
which is what the claim (and the spec's per-instance lock scoping) describes,
but that lock is never used for token locking. -/
theorem two_stores_share_token_lock :
    (twoStores.map fun p =>
      (p.1.token.lockId, p.2.token.lockId, p.1.token_lock, p.2.token_lock)) =
    some (0, 0, 1, 2) := rfl

/-- C10: `AppDOauthToken.lock` calls `acquire` with a 5-second timeout and
discards the Bool result.  Under contention outlasting the timeout the
acquire returns `false`, yet `lock()` returns normally with the lock still
held by the other thread — so the critical section bracketed by
`lock_token()` / `unlock_token()` (as in `AppDController.request`) runs
unprotected — and the paired `unlock()` then releases the other holder's
lock, or raises `RuntimeError` if the lock is not held at all. -/
theorem lock_method_discards_acquire_result :
    (PyLock.acquireTimeout { held := true } false).2 = false ∧
    AppDOauthToken.lockMethod { held := true } false = { held := true } ∧
    AppDOauthToken.unlockMethod { held := true } = .ok { held := false } ∧
    AppDOauthToken.unlockMethod { held := false } = .error "release unlocked lock" :=
  ⟨rfl, rfl, rfl, rfl⟩

end AppDPyAPI
